import Mathlib

/-!
Verification development for the ClawdChat MCP OAuth layer.

Shallow embedding of `src/clawdchat_mcp/storage.py` (TokenStore and its
record types) and `src/clawdchat_mcp/auth_provider.py`
(ClawdChatOAuthProvider and `_complete_authorization`).

Modelling conventions:
* Python dicts become association lists over `String` keys; `dget`, `derase`
  and `dinsert` model `d.get(k)`, `d.pop(k, None)` / `del d[k]` and
  `d[k] = v` (lookup-equivalent to CPython dicts).
* Wall-clock time (`time.time()`) is passed explicitly as an `Int` parameter
  `now`; `expires_at` floats/ints are embedded as `Int`.
* Python truthiness is modelled faithfully: `e and e < now` on an
  `Optional[int]` is false when `e` is `None` **or** `0` (`truthyLt`);
  `not api_key` is true for `None` and for the empty string (`truthyOptStr`).
* Random token generation (`secrets.token_urlsafe`) is an oracle: generated
  strings are explicit parameters, with freshness hypotheses where a claim
  needs them.
* Network calls of `_complete_authorization` (`get_agent_credentials`,
  `reset_agent_key`) are oracles passed as `Except String (Option String)`
  (`.error` models a raised `ClawdChatAPIError`); the result records how
  many times the reset endpoint was invoked.
* Disk persistence is modelled structurally: `_save_tokens` produces a
  `Json` document (the dataclass `asdict` dump) and `_load_tokens` decodes
  it, mirroring the skip-expired loop and the surrounding `try/except`.
-/

namespace ClawdChat

/-- Python `d.get(k)` on a dict modelled as an association list. -/
def dget {α : Type} : List (String × α) → String → Option α
  | [], _ => none
  | (k2, v) :: rest, k => if k2 = k then some v else dget rest k

/-- Python `d.pop(k, None)` / `del d[k]`: remove the binding of `k`. -/
def derase {α : Type} : List (String × α) → String → List (String × α)
  | [], _ => []
  | (k2, v) :: rest, k => if k2 = k then derase rest k else (k2, v) :: derase rest k

/-- Python `d[k] = v` (lookup-equivalent placement of the new binding). -/
def dinsert {α : Type} (l : List (String × α)) (k : String) (v : α) : List (String × α) :=
  (k, v) :: derase l k

/-- Python `e and e < now` for `e : Optional[int]`: `None` and `0` are falsy,
so only a non-null, non-zero `expires_at` can make the check true. -/
def truthyLt (e : Option Int) (now : Int) : Bool :=
  match e with
  | none => false
  | some v => v != 0 && v < now

/-- Python `not api_key` for `api_key : Optional[str]`: `None` and `""` are falsy. -/
def truthyOptStr : Option String → Bool
  | none => false
  | some s => s != ""

/-- Record `AuthCodeData` from storage.py: a one-time authorization code with the
resolved identity bundle. `expires_at` is a wall-clock instant. -/
structure AuthCodeData where
  code : String
  client_id : String
  redirect_uri : String
  redirect_uri_provided_explicitly : Bool
  code_challenge : String
  scopes : List String
  expires_at : Int
  agent_api_key : String
  agent_id : String
  agent_name : String
  user_jwt : String
  resource : Option String := none
deriving Repr, DecidableEq

/-- Record `AccessTokenData` from storage.py. -/
structure AccessTokenData where
  token : String
  client_id : String
  scopes : List String
  expires_at : Option Int
  agent_api_key : String
  agent_id : String
  agent_name : String
  user_jwt : String
  resource : Option String := none
deriving Repr, DecidableEq

/-- Record `RefreshTokenData` from storage.py. Note: it has no `resource` field. -/
structure RefreshTokenData where
  token : String
  client_id : String
  scopes : List String
  expires_at : Option Int
  agent_api_key : String
  agent_id : String
  agent_name : String
  user_jwt : String
deriving Repr, DecidableEq

/-- Record `PendingLogin` from storage.py (the opaque `user_info` display dict is
not modelled; no modelled code path reads it). `created_at` is supplied by
the caller, standing for `time.time()` in `__post_init__`. -/
structure PendingLogin where
  state : String
  oauth_state : String
  client_id : String
  redirect_uri : String
  redirect_uri_provided_explicitly : Bool
  code_challenge : String
  scopes : List String
  resource : Option String := none
  user_jwt : Option String := none
  created_at : Int := 0
deriving Repr, DecidableEq

/-- The in-memory maps of `TokenStore` (client registrations are not needed
by any claim and are omitted). -/
structure TokenStore where
  auth_codes : List (String × AuthCodeData) := []
  access_tokens : List (String × AccessTokenData) := []
  refresh_tokens : List (String × RefreshTokenData) := []
  pending_logins : List (String × PendingLogin) := []
deriving Repr, DecidableEq

namespace TokenStore

/-- Model of `store_auth_code`. -/
def store_auth_code (s : TokenStore) (data : AuthCodeData) : TokenStore :=
  { s with auth_codes := dinsert s.auth_codes data.code data }

/-- Model of `get_auth_code`: lazily evicts an expired code and reports it absent. -/
def get_auth_code (s : TokenStore) (code : String) (now : Int) :
    Option AuthCodeData × TokenStore :=
  match dget s.auth_codes code with
  | none => (none, s)
  | some data =>
    if data.expires_at < now then
      (none, { s with auth_codes := derase s.auth_codes code })
    else
      (some data, s)

/-- Model of `consume_auth_code`: `self.auth_codes.pop(code, None)` — a bare pop,
with no expiry check. -/
def consume_auth_code (s : TokenStore) (code : String) :
    Option AuthCodeData × TokenStore :=
  match dget s.auth_codes code with
  | none => (none, s)
  | some data => (some data, { s with auth_codes := derase s.auth_codes code })

/-- Model of `store_access_token`. -/
def store_access_token (s : TokenStore) (data : AccessTokenData) : TokenStore :=
  { s with access_tokens := dinsert s.access_tokens data.token data }

/-- Model of `get_access_token`: evicts the entry when `expires_at` is truthy and in
the past (Python truthiness: `None` and `0` never trigger eviction). -/
def get_access_token (s : TokenStore) (token : String) (now : Int) :
    Option AccessTokenData × TokenStore :=
  match dget s.access_tokens token with
  | none => (none, s)
  | some data =>
    if truthyLt data.expires_at now then
      (none, { s with access_tokens := derase s.access_tokens token })
    else
      (some data, s)

/-- Model of `revoke_access_token`. -/
def revoke_access_token (s : TokenStore) (token : String) : TokenStore :=
  { s with access_tokens := derase s.access_tokens token }

/-- Model of `update_access_token_agent`: rebinds the agent identity of a stored
access token in place; returns `false` and leaves the store unchanged when
the token is absent. -/
def update_access_token_agent (s : TokenStore) (token : String)
    (agent_api_key agent_id agent_name : String) : Bool × TokenStore :=
  match dget s.access_tokens token with
  | none => (false, s)
  | some data =>
    let updated := { data with
      agent_api_key := agent_api_key
      agent_id := agent_id
      agent_name := agent_name }
    (true, { s with access_tokens := dinsert s.access_tokens token updated })

/-- Model of `store_refresh_token`. -/
def store_refresh_token (s : TokenStore) (data : RefreshTokenData) : TokenStore :=
  { s with refresh_tokens := dinsert s.refresh_tokens data.token data }

/-- Model of `get_refresh_token`: same lazy truthiness-guarded eviction as access tokens. -/
def get_refresh_token (s : TokenStore) (token : String) (now : Int) :
    Option RefreshTokenData × TokenStore :=
  match dget s.refresh_tokens token with
  | none => (none, s)
  | some data =>
    if truthyLt data.expires_at now then
      (none, { s with refresh_tokens := derase s.refresh_tokens token })
    else
      (some data, s)

/-- Model of `revoke_refresh_token`. -/
def revoke_refresh_token (s : TokenStore) (token : String) : TokenStore :=
  { s with refresh_tokens := derase s.refresh_tokens token }

/-- Model of `store_pending_login`. -/
def store_pending_login (s : TokenStore) (data : PendingLogin) : TokenStore :=
  { s with pending_logins := dinsert s.pending_logins data.state data }

/-- Model of `consume_pending_login`: `self.pending_logins.pop(state, None)`. -/
def consume_pending_login (s : TokenStore) (state : String) :
    Option PendingLogin × TokenStore :=
  match dget s.pending_logins state with
  | none => (none, s)
  | some data => (some data, { s with pending_logins := derase s.pending_logins state })

end TokenStore

/-- Structural JSON values, for the on-disk token document. -/
inductive Json where
  | str (s : String)
  | num (n : Int)
  | null
  | arr (l : List Json)
  | obj (fields : List (String × Json))

/-- Encode a scope list as a JSON array of strings. -/
def strListToJson (l : List String) : Json :=
  .arr (l.map .str)

/-- Encode an `Optional[int]` (`None` → JSON null). -/
def optIntToJson : Option Int → Json
  | none => .null
  | some v => .num v

/-- Encode an `Optional[str]` (`None` → JSON null). -/
def optStrToJson : Option String → Json
  | none => .null
  | some s => .str s

/-- Decode a JSON string. -/
def asStr : Json → Option String
  | .str s => some s
  | _ => none

/-- Decode a JSON null-or-number into an `Optional[int]`. -/
def asOptInt : Json → Option (Option Int)
  | .null => some none
  | .num v => some (some v)
  | _ => none

/-- Decode a JSON null-or-string into an `Optional[str]`. -/
def asOptStr : Json → Option (Option String)
  | .null => some none
  | .str s => some (some s)
  | _ => none

/-- Decode a list of JSON strings. -/
def decodeStrs : List Json → Option (List String)
  | [] => some []
  | .str s :: rest => (decodeStrs rest).map (s :: ·)
  | _ => none

/-- Decode a JSON array of strings. -/
def asStrList : Json → Option (List String)
  | .arr l => decodeStrs l
  | _ => none

/-- Dump (`asdict`) of an `AccessTokenData` (dataclass field order). -/
def accessToJson (d : AccessTokenData) : Json :=
  .obj [
    ("token", .str d.token),
    ("client_id", .str d.client_id),
    ("scopes", strListToJson d.scopes),
    ("expires_at", optIntToJson d.expires_at),
    ("agent_api_key", .str d.agent_api_key),
    ("agent_id", .str d.agent_id),
    ("agent_name", .str d.agent_name),
    ("user_jwt", .str d.user_jwt),
    ("resource", optStrToJson d.resource)]

/-- Reconstruction `AccessTokenData(**v)`: reconstruct the record from a JSON object,
failing (raising, in the source) when any declared field is missing or of
the wrong shape. -/
def accessFromJson : Json → Option AccessTokenData
  | .obj fields => do
    let token ← dget fields "token" >>= asStr
    let client_id ← dget fields "client_id" >>= asStr
    let scopes ← dget fields "scopes" >>= asStrList
    let expires_at ← dget fields "expires_at" >>= asOptInt
    let agent_api_key ← dget fields "agent_api_key" >>= asStr
    let agent_id ← dget fields "agent_id" >>= asStr
    let agent_name ← dget fields "agent_name" >>= asStr
    let user_jwt ← dget fields "user_jwt" >>= asStr
    let resource ← dget fields "resource" >>= asOptStr
    some ⟨token, client_id, scopes, expires_at, agent_api_key, agent_id,
          agent_name, user_jwt, resource⟩
  | _ => none

/-- Dump (`asdict`) of a `RefreshTokenData` (no `resource` field). -/
def refreshToJson (d : RefreshTokenData) : Json :=
  .obj [
    ("token", .str d.token),
    ("client_id", .str d.client_id),
    ("scopes", strListToJson d.scopes),
    ("expires_at", optIntToJson d.expires_at),
    ("agent_api_key", .str d.agent_api_key),
    ("agent_id", .str d.agent_id),
    ("agent_name", .str d.agent_name),
    ("user_jwt", .str d.user_jwt)]

/-- Reconstruction `RefreshTokenData(**v)`. -/
def refreshFromJson : Json → Option RefreshTokenData
  | .obj fields => do
    let token ← dget fields "token" >>= asStr
    let client_id ← dget fields "client_id" >>= asStr
    let scopes ← dget fields "scopes" >>= asStrList
    let expires_at ← dget fields "expires_at" >>= asOptInt
    let agent_api_key ← dget fields "agent_api_key" >>= asStr
    let agent_id ← dget fields "agent_id" >>= asStr
    let agent_name ← dget fields "agent_name" >>= asStr
    let user_jwt ← dget fields "user_jwt" >>= asStr
    some ⟨token, client_id, scopes, expires_at, agent_api_key, agent_id,
          agent_name, user_jwt⟩
  | _ => none

/-- Model of `TokenStore._save_tokens`: the document written to disk — the two token
tables dumped field-by-field. -/
def saveTokens (s : TokenStore) : Json :=
  .obj [
    ("access_tokens", .obj (s.access_tokens.map fun kv => (kv.1, accessToJson kv.2))),
    ("refresh_tokens", .obj (s.refresh_tokens.map fun kv => (kv.1, refreshToJson kv.2)))]

/-- The access-token loading loop of `_load_tokens`: decode each entry,
skip it when `expires_at` is truthy and in the past, and stop (the raised
exception reaches the enclosing `except`) on a malformed entry — entries
already inserted stay. Returns the loaded entries and whether the loop
finished cleanly. -/
def loadAccessLoop : List (String × Json) → Int →
    List (String × AccessTokenData) → List (String × AccessTokenData) × Bool
  | [], _, acc => (acc, true)
  | (k, v) :: rest, now, acc =>
    match accessFromJson v with
    | none => (acc, false)
    | some d =>
      if truthyLt d.expires_at now then loadAccessLoop rest now acc
      else loadAccessLoop rest now (acc ++ [(k, d)])

/-- The refresh-token loading loop of `_load_tokens`. -/
def loadRefreshLoop : List (String × Json) → Int →
    List (String × RefreshTokenData) → List (String × RefreshTokenData) × Bool
  | [], _, acc => (acc, true)
  | (k, v) :: rest, now, acc =>
    match refreshFromJson v with
    | none => (acc, false)
    | some d =>
      if truthyLt d.expires_at now then loadRefreshLoop rest now acc
      else loadRefreshLoop rest now (acc ++ [(k, d)])

/-- A fresh `TokenStore` reading the persisted token document
(`__init__` + `_load_tokens`): starts empty, loads non-expired entries, and
tolerates malformed documents by keeping whatever loaded before the
exception (the `except` clause only logs). -/
def tokenStoreFromSaved (j : Json) (now : Int) : TokenStore :=
  match j with
  | .obj fields =>
    match (match dget fields "access_tokens" with
           | none => some []
           | some (.obj l) => some l
           | some _ => none) with
    | none => {}
    | some atEntries =>
      match loadAccessLoop atEntries now [] with
      | (ats, false) => { access_tokens := ats }
      | (ats, true) =>
        match (match dget fields "refresh_tokens" with
               | none => some []
               | some (.obj l) => some l
               | some _ => none) with
        | none => { access_tokens := ats }
        | some rtEntries =>
          { access_tokens := ats, refresh_tokens := (loadRefreshLoop rtEntries now []).1 }
  | _ => {}

/-- Token lifetimes from auth_provider.py. -/
def ACCESS_TOKEN_EXPIRY : Int := 3600

/-- Refresh token lifetime: 7 days. -/
def REFRESH_TOKEN_EXPIRY : Int := 7 * 24 * 3600

/-- Authorization code lifetime: 5 minutes. -/
def AUTH_CODE_EXPIRY : Int := 300

/-- The `TokenError` exception raised by the provider's exchange methods. -/
structure TokenError where
  error : String
  error_description : String
deriving Repr, DecidableEq

/-- The `OAuthToken` response returned by the exchange methods. -/
structure OAuthTokenResp where
  access_token : String
  token_type : String
  expires_in : Int
  refresh_token : String
  scope : String
deriving Repr, DecidableEq

/-- The MCP `RefreshToken` shape returned by `load_refresh_token`. -/
structure RefreshToken where
  token : String
  client_id : String
  scopes : List String
  expires_at : Option Int
deriving Repr, DecidableEq

/-- Model of `ClawdChatOAuthProvider.exchange_authorization_code`: pops the code via
`consume_auth_code` (no expiry check there), raising `invalid_grant` only
when it is absent, then mints and stores an access/refresh pair carrying the
code's identity bundle. The generated random tokens are the explicit
parameters `genAccess`/`genRefresh`. -/
def exchange_authorization_code (s : TokenStore) (client_id code : String)
    (genAccess genRefresh : String) (now : Int) :
    Except TokenError OAuthTokenResp × TokenStore :=
  match s.consume_auth_code code with
  | (none, s1) =>
    (.error ⟨"invalid_grant", "Authorization code not found or expired"⟩, s1)
  | (some code_data, s1) =>
    let s2 := s1.store_access_token {
      token := genAccess
      client_id := client_id
      scopes := code_data.scopes
      expires_at := some (now + ACCESS_TOKEN_EXPIRY)
      agent_api_key := code_data.agent_api_key
      agent_id := code_data.agent_id
      agent_name := code_data.agent_name
      user_jwt := code_data.user_jwt
      resource := code_data.resource }
    let s3 := s2.store_refresh_token {
      token := genRefresh
      client_id := client_id
      scopes := code_data.scopes
      expires_at := some (now + REFRESH_TOKEN_EXPIRY)
      agent_api_key := code_data.agent_api_key
      agent_id := code_data.agent_id
      agent_name := code_data.agent_name
      user_jwt := code_data.user_jwt }
    (.ok {
      access_token := genAccess
      token_type := "Bearer"
      expires_in := ACCESS_TOKEN_EXPIRY
      refresh_token := genRefresh
      scope := String.intercalate " " code_data.scopes }, s3)

/-- Model of `ClawdChatOAuthProvider.load_refresh_token`: lookup with lazy eviction,
then a client-ownership check. -/
def load_refresh_token (s : TokenStore) (client_id token : String) (now : Int) :
    Option RefreshToken × TokenStore :=
  match s.get_refresh_token token now with
  | (none, s1) => (none, s1)
  | (some data, s1) =>
    if data.client_id != client_id then (none, s1)
    else (some ⟨data.token, data.client_id, data.scopes, data.expires_at⟩, s1)

/-- Model of `ClawdChatOAuthProvider.exchange_refresh_token`: looks up the old token
(`invalid_grant` when absent/expired), revokes it, then mints a new
access/refresh pair preserving the old token's identity bundle; a non-empty
caller-supplied scope list overrides the stored scopes (Python
`scopes if scopes else old_data.scopes`). -/
def exchange_refresh_token (s : TokenStore) (client_id refresh_token : String)
    (scopes : List String) (genAccess genRefresh : String) (now : Int) :
    Except TokenError OAuthTokenResp × TokenStore :=
  match s.get_refresh_token refresh_token now with
  | (none, s1) =>
    (.error ⟨"invalid_grant", "Refresh token not found or expired"⟩, s1)
  | (some old_data, s1) =>
    let s2 := s1.revoke_refresh_token refresh_token
    let use_scopes := if scopes = [] then old_data.scopes else scopes
    let s3 := s2.store_access_token {
      token := genAccess
      client_id := client_id
      scopes := use_scopes
      expires_at := some (now + ACCESS_TOKEN_EXPIRY)
      agent_api_key := old_data.agent_api_key
      agent_id := old_data.agent_id
      agent_name := old_data.agent_name
      user_jwt := old_data.user_jwt }
    let s4 := s3.store_refresh_token {
      token := genRefresh
      client_id := client_id
      scopes := use_scopes
      expires_at := some (now + REFRESH_TOKEN_EXPIRY)
      agent_api_key := old_data.agent_api_key
      agent_id := old_data.agent_id
      agent_name := old_data.agent_name
      user_jwt := old_data.user_jwt }
    (.ok {
      access_token := genAccess
      token_type := "Bearer"
      expires_in := ACCESS_TOKEN_EXPIRY
      refresh_token := genRefresh
      scope := String.intercalate " " use_scopes }, s4)

/-- The `AuthorizationParams` the MCP framework hands to `authorize`. -/
structure AuthorizationParams where
  state : Option String
  scopes : Option (List String)
  code_challenge : String
  redirect_uri : String
  redirect_uri_provided_explicitly : Bool
  resource : Option String
deriving Repr, DecidableEq

/-- The `PendingLogin` record `authorize` stores: the internal random state
as key, the client's original OAuth state (`params.state or ""`), and the
request parameters (`params.scopes or ["agent"]`). -/
def authorizePending (client_id : String) (params : AuthorizationParams)
    (genState : String) (now : Int) : PendingLogin := {
  state := genState
  oauth_state := params.state.getD ""
  client_id := client_id
  redirect_uri := params.redirect_uri
  redirect_uri_provided_explicitly := params.redirect_uri_provided_explicitly
  code_challenge := params.code_challenge
  scopes := match params.scopes with
    | none => ["agent"]
    | some [] => ["agent"]
    | some l => l
  resource := params.resource
  user_jwt := none
  created_at := now }

/-- Model of `ClawdChatOAuthProvider.authorize`: stores a `PendingLogin` that captures
the client's original OAuth state alongside a freshly generated internal
state, and returns the login-page URL keyed by the internal state. -/
def authorize (s : TokenStore) (client_id : String) (params : AuthorizationParams)
    (genState server_url : String) (now : Int) : String × TokenStore :=
  (server_url ++ "/auth/login?state=" ++ genState,
   s.store_pending_login (authorizePending client_id params genState now))

/-- Modelled from the MCP SDK's `construct_redirect_uri`: the redirect back
to the client, with its query parameters kept structured; a `none` state is
omitted entirely (the source passes `state=pending.oauth_state or None`). -/
structure RedirectUri where
  base : String
  query : List (String × String)
deriving Repr, DecidableEq

/-- Builds the client redirect: always a `code` parameter, plus a `state`
parameter exactly when one is supplied. -/
def construct_redirect_uri (base code : String) (state : Option String) : RedirectUri :=
  ⟨base, [("code", code)] ++ (match state with | none => [] | some v => [("state", v)])⟩

/-- The JSON responses `_complete_authorization` can produce. -/
inductive AuthCompletionResponse where
  | needsReset (agent_id agent_name message : String)
  | errorResp (message : String)
  | redirect (uri : RedirectUri)
deriving Repr, DecidableEq

/-- Result of `_complete_authorization`: the response, the store afterwards,
and how many times `reset_agent_key` was invoked on the backend. -/
structure CompleteAuthResult where
  response : AuthCompletionResponse
  store : TokenStore
  resetCalls : Nat
deriving Repr, DecidableEq

/-- The `AuthCodeData` minted at the end of `_complete_authorization`: the
pending login's request parameters plus the resolved identity bundle. -/
def authCodeFor (pending : PendingLogin) (agent_id agent_name api_key genCode : String)
    (now : Int) : AuthCodeData := {
  code := genCode
  client_id := pending.client_id
  redirect_uri := pending.redirect_uri
  redirect_uri_provided_explicitly := pending.redirect_uri_provided_explicitly
  code_challenge := pending.code_challenge
  scopes := pending.scopes
  expires_at := now + AUTH_CODE_EXPIRY
  agent_api_key := api_key
  agent_id := agent_id
  agent_name := agent_name
  user_jwt := pending.user_jwt.getD ""
  resource := pending.resource }

/-- The shared tail of `_complete_authorization` once an API key is in hand:
mint and store the auth code, consume the pending login, and build the
redirect carrying the **original** OAuth state (omitted when empty). -/
def completeWithKey (s : TokenStore) (state : String) (pending : PendingLogin)
    (agent_id agent_name api_key genCode : String) (now : Int)
    (resetCalls : Nat) : CompleteAuthResult :=
  let s1 := s.store_auth_code (authCodeFor pending agent_id agent_name api_key genCode now)
  let s2 := (s1.consume_pending_login state).2
  let uri := construct_redirect_uri pending.redirect_uri genCode
    (if pending.oauth_state = "" then none else some pending.oauth_state)
  ⟨.redirect uri, s2, resetCalls⟩

/-- Model of `_complete_authorization` from auth_provider.py. `credResult` is the
outcome of `get_agent_credentials` (the stored API key, possibly `None`),
`resetResult` the outcome of `reset_agent_key`; `.error` models a raised
`ClawdChatAPIError`, caught by the surrounding `except` clause. -/
def complete_authorization (s : TokenStore) (state : String) (pending : PendingLogin)
    (agent_id agent_name : String) (confirm_reset : Bool)
    (credResult resetResult : Except String (Option String))
    (genCode : String) (now : Int) : CompleteAuthResult :=
  match credResult with
  | .error e => ⟨.errorResp ("获取凭证失败: " ++ e), s, 0⟩
  | .ok api_key =>
    if truthyOptStr api_key then
      completeWithKey s state pending agent_id agent_name (api_key.getD "") genCode now 0
    else if !confirm_reset then
      ⟨.needsReset agent_id agent_name
        ("Agent「" ++ agent_name ++ "」注册较早，未存储 API Key，需要重置生成新 Key 后才能使用。重置后原有 Key 将失效。"),
       s, 0⟩
    else
      match resetResult with
      | .error e => ⟨.errorResp ("获取凭证失败: " ++ e), s, 1⟩
      | .ok new_key =>
        if truthyOptStr new_key then
          completeWithKey s state pending agent_id agent_name (new_key.getD "") genCode now 1
        else
          ⟨.errorResp "重置 API Key 失败", s, 1⟩

/-! ### Helper lemmas about the dict model -/

theorem dget_derase_self {α : Type} (l : List (String × α)) (k : String) :
    dget (derase l k) k = none := by
  induction l with
  | nil => simp [derase, dget]
  | cons hd tl ih =>
    obtain ⟨k2, v⟩ := hd
    by_cases hk : k2 = k
    · simp [derase, hk, ih]
    · simp [derase, dget, hk, ih]

theorem dget_derase_ne {α : Type} (l : List (String × α)) (k k' : String)
    (h : k ≠ k') : dget (derase l k) k' = dget l k' := by
  induction l with
  | nil => simp [derase]
  | cons hd tl ih =>
    obtain ⟨k2, v⟩ := hd
    by_cases hk : k2 = k
    · subst hk
      simp [derase, dget, h, ih]
    · simp [derase, dget, hk, ih]

theorem dget_dinsert_self {α : Type} (l : List (String × α)) (k : String) (v : α) :
    dget (dinsert l k v) k = some v := by
  simp [dinsert, dget]

theorem dget_dinsert_ne {α : Type} (l : List (String × α)) (k k' : String) (v : α)
    (h : k ≠ k') : dget (dinsert l k v) k' = dget l k' := by
  simp [dinsert, dget, h, dget_derase_ne l k k' h]

/-! ### Sample data for witnesses and counterexamples -/

/-- A concrete authorization code used by witnesses. -/
def sampleCode : AuthCodeData := {
  code := "code1"
  client_id := "cli"
  redirect_uri := "https://client/cb"
  redirect_uri_provided_explicitly := true
  code_challenge := "chal"
  scopes := ["agent"]
  expires_at := 1000
  agent_api_key := "key"
  agent_id := "aid"
  agent_name := "AgentA"
  user_jwt := "jwt"
  resource := none }

/-- A store holding exactly `sampleCode`. -/
def sampleStore1 : TokenStore := { auth_codes := [("code1", sampleCode)] }

/-! ### C1 — single-use authorization code -/

/-- C1: for an authorization code stored in the `TokenStore`, the first
`exchange_authorization_code` call succeeds and returns the minted token
response; the code is gone from the store afterwards, so every subsequent
call with the same code (on the resulting store, or on any store no longer
holding the code) fails with a `TokenError` whose error is
`invalid_grant`. -/
theorem auth_code_single_use (s : TokenStore) (code cid ga gr ga2 gr2 : String)
    (now now2 : Int) (d : AuthCodeData)
    (h : dget s.auth_codes code = some d) :
    (exchange_authorization_code s cid code ga gr now).1 = .ok {
        access_token := ga
        token_type := "Bearer"
        expires_in := ACCESS_TOKEN_EXPIRY
        refresh_token := gr
        scope := String.intercalate " " d.scopes } ∧
    dget (exchange_authorization_code s cid code ga gr now).2.auth_codes code = none ∧
    (∀ s2 : TokenStore, dget s2.auth_codes code = none →
      (exchange_authorization_code s2 cid code ga2 gr2 now2).1 =
        .error ⟨"invalid_grant", "Authorization code not found or expired"⟩) ∧
    (exchange_authorization_code
        (exchange_authorization_code s cid code ga gr now).2 cid code ga2 gr2 now2).1 =
      .error ⟨"invalid_grant", "Authorization code not found or expired"⟩ := by
  have habsent : ∀ s2 : TokenStore, dget s2.auth_codes code = none →
      (exchange_authorization_code s2 cid code ga2 gr2 now2).1 =
        .error ⟨"invalid_grant", "Authorization code not found or expired"⟩ := by
    intro s2 h2
    simp [exchange_authorization_code, TokenStore.consume_auth_code, h2]
  have hsnd : (exchange_authorization_code s cid code ga gr now).2.auth_codes =
      derase s.auth_codes code := by
    simp [exchange_authorization_code, TokenStore.consume_auth_code, h,
      TokenStore.store_access_token, TokenStore.store_refresh_token]
  refine ⟨?_, ?_, habsent, ?_⟩
  · simp [exchange_authorization_code, TokenStore.consume_auth_code, h,
      TokenStore.store_access_token, TokenStore.store_refresh_token]
  · rw [hsnd]
    exact dget_derase_self _ _
  · apply habsent
    rw [hsnd]
    exact dget_derase_self _ _

/-- Witness for C1 at a concrete store: the exchange succeeds once and the
replay fails with `invalid_grant`. -/
theorem auth_code_single_use_witness :
    (exchange_authorization_code sampleStore1 "cli" "code1" "at1" "rt1" 100).1 = .ok {
        access_token := "at1"
        token_type := "Bearer"
        expires_in := ACCESS_TOKEN_EXPIRY
        refresh_token := "rt1"
        scope := String.intercalate " " sampleCode.scopes } ∧
    dget (exchange_authorization_code sampleStore1 "cli" "code1" "at1" "rt1" 100).2.auth_codes
      "code1" = none ∧
    (exchange_authorization_code
        (exchange_authorization_code sampleStore1 "cli" "code1" "at1" "rt1" 100).2
        "cli" "code1" "at2" "rt2" 200).1 =
      .error ⟨"invalid_grant", "Authorization code not found or expired"⟩ := by
  have t := auth_code_single_use sampleStore1 "code1" "cli" "at1" "rt1" "at2" "rt2"
    100 200 sampleCode rfl
  exact ⟨t.1, t.2.1, t.2.2.2⟩

/-! ### C2 — expiry at exchange time -/

/-- An authorization code whose `expires_at` is long past. -/
def expiredCode : AuthCodeData := { sampleCode with expires_at := 0 }

/-- A store still holding the expired code. -/
def expiredCodeStore : TokenStore := { auth_codes := [("code1", expiredCode)] }

/-- C2 counterexample: an authorization code whose `expires_at` (0) is in the
past at call time (now = 100) but which is still present in `auth_codes` is
exchanged **successfully** — `consume_auth_code` is a bare `pop` with no
expiry check, so tokens are minted rather than `invalid_grant` raised. -/
theorem expired_code_exchange_counterexample :
    expiredCode.expires_at < (100 : Int) ∧
    (exchange_authorization_code expiredCodeStore "cli" "code1" "at1" "rt1" 100).1 = .ok {
        access_token := "at1"
        token_type := "Bearer"
        expires_in := ACCESS_TOKEN_EXPIRY
        refresh_token := "rt1"
        scope := "agent" } ∧
    dget (exchange_authorization_code expiredCodeStore "cli" "code1" "at1" "rt1" 100).2.access_tokens
      "at1" ≠ none := by
  refine ⟨by decide, rfl, by decide⟩

/-- C2 amended: `exchange_authorization_code` checks only presence — absent
codes fail with `invalid_grant`, present codes are exchanged regardless of
`expires_at`; expiry is instead enforced at load time, where `get_auth_code`
evicts an expired code and reports it absent. -/
theorem exchange_code_presence_only (s : TokenStore) (code cid ga gr : String)
    (now : Int) :
    (dget s.auth_codes code = none →
      (exchange_authorization_code s cid code ga gr now).1 =
        .error ⟨"invalid_grant", "Authorization code not found or expired"⟩) ∧
    (∀ d : AuthCodeData, dget s.auth_codes code = some d →
      (exchange_authorization_code s cid code ga gr now).1 = .ok {
        access_token := ga
        token_type := "Bearer"
        expires_in := ACCESS_TOKEN_EXPIRY
        refresh_token := gr
        scope := String.intercalate " " d.scopes }) ∧
    (∀ d : AuthCodeData, dget s.auth_codes code = some d → d.expires_at < now →
      TokenStore.get_auth_code s code now =
        (none, { s with auth_codes := derase s.auth_codes code })) := by
  refine ⟨?_, ?_, ?_⟩
  · intro h
    simp [exchange_authorization_code, TokenStore.consume_auth_code, h]
  · intro d h
    simp [exchange_authorization_code, TokenStore.consume_auth_code, h]
  · intro d h hexp
    simp [TokenStore.get_auth_code, h, hexp]

/-- Witness for the amended C2 at concrete stores: absent code fails,
present-but-expired code succeeds, and `get_auth_code` evicts it. -/
theorem exchange_code_presence_only_witness :
    (exchange_authorization_code ({} : TokenStore) "cli" "code1" "at1" "rt1" 100).1 =
      .error ⟨"invalid_grant", "Authorization code not found or expired"⟩ ∧
    (exchange_authorization_code expiredCodeStore "cli" "code1" "at1" "rt1" 100).1 = .ok {
        access_token := "at1"
        token_type := "Bearer"
        expires_in := ACCESS_TOKEN_EXPIRY
        refresh_token := "rt1"
        scope := String.intercalate " " expiredCode.scopes } ∧
    TokenStore.get_auth_code expiredCodeStore "code1" 100 =
      (none, { expiredCodeStore with
        auth_codes := derase expiredCodeStore.auth_codes "code1" }) := by
  refine ⟨(exchange_code_presence_only {} "code1" "cli" "at1" "rt1" 100).1 rfl,
    (exchange_code_presence_only expiredCodeStore "code1" "cli" "at1" "rt1" 100).2.1
      expiredCode rfl,
    (exchange_code_presence_only expiredCodeStore "code1" "cli" "at1" "rt1" 100).2.2
      expiredCode rfl (by decide)⟩

/-! ### C3 — single-use refresh token -/

/-- A concrete refresh token for witnesses. -/
def sampleRefresh : RefreshTokenData := {
  token := "rt0"
  client_id := "cli"
  scopes := ["agent"]
  expires_at := some 5000
  agent_api_key := "key"
  agent_id := "aid"
  agent_name := "AgentA"
  user_jwt := "jwt" }

/-- A store holding exactly `sampleRefresh`. -/
def sampleStoreR : TokenStore := { refresh_tokens := [("rt0", sampleRefresh)] }

/-- C3: exchanging a stored, unexpired refresh token succeeds; the old token
is erased and only then is the freshly generated pair inserted (the final
refresh table is literally `dinsert (derase old) new`), so — provided the
generated refresh token differs from the old one — the old value is absent
afterwards, every later `load_refresh_token` on it returns `none`, every
later `exchange_refresh_token` on it fails with `invalid_grant`, and the
newly issued refresh token string is distinct from the old one. -/
theorem refresh_token_single_use (s : TokenStore) (cid tok ga gr : String)
    (scopes : List String) (now : Int) (old : RefreshTokenData)
    (h : dget s.refresh_tokens tok = some old)
    (hexp : truthyLt old.expires_at now = false)
    (hfresh : gr ≠ tok) :
    ((exchange_refresh_token s cid tok scopes ga gr now).1 = .ok {
        access_token := ga
        token_type := "Bearer"
        expires_in := ACCESS_TOKEN_EXPIRY
        refresh_token := gr
        scope := String.intercalate " " (if scopes = [] then old.scopes else scopes) } ∧
      gr ≠ tok) ∧
    (exchange_refresh_token s cid tok scopes ga gr now).2.refresh_tokens =
      dinsert (derase s.refresh_tokens tok) gr {
        token := gr
        client_id := cid
        scopes := if scopes = [] then old.scopes else scopes
        expires_at := some (now + REFRESH_TOKEN_EXPIRY)
        agent_api_key := old.agent_api_key
        agent_id := old.agent_id
        agent_name := old.agent_name
        user_jwt := old.user_jwt } ∧
    dget (exchange_refresh_token s cid tok scopes ga gr now).2.refresh_tokens tok = none ∧
    (∀ (cid2 : String) (now2 : Int),
      (load_refresh_token (exchange_refresh_token s cid tok scopes ga gr now).2
        cid2 tok now2).1 = none) ∧
    (∀ (cid2 : String) (scopes2 : List String) (ga2 gr2 : String) (now2 : Int),
      (exchange_refresh_token (exchange_refresh_token s cid tok scopes ga gr now).2
        cid2 tok scopes2 ga2 gr2 now2).1 =
      .error ⟨"invalid_grant", "Refresh token not found or expired"⟩) := by
  have hmap : (exchange_refresh_token s cid tok scopes ga gr now).2.refresh_tokens =
      dinsert (derase s.refresh_tokens tok) gr {
        token := gr
        client_id := cid
        scopes := if scopes = [] then old.scopes else scopes
        expires_at := some (now + REFRESH_TOKEN_EXPIRY)
        agent_api_key := old.agent_api_key
        agent_id := old.agent_id
        agent_name := old.agent_name
        user_jwt := old.user_jwt } := by
    simp [exchange_refresh_token, TokenStore.get_refresh_token, h, hexp,
      TokenStore.revoke_refresh_token, TokenStore.store_access_token,
      TokenStore.store_refresh_token]
  have habsent : dget (exchange_refresh_token s cid tok scopes ga gr now).2.refresh_tokens
      tok = none := by
    rw [hmap, dget_dinsert_ne _ _ _ _ hfresh]
    exact dget_derase_self _ _
  refine ⟨⟨?_, hfresh⟩, hmap, habsent, ?_, ?_⟩
  · simp [exchange_refresh_token, TokenStore.get_refresh_token, h, hexp]
  · intro cid2 now2
    generalize hs : (exchange_refresh_token s cid tok scopes ga gr now).2 = s2 at habsent ⊢
    simp [load_refresh_token, TokenStore.get_refresh_token, habsent]
  · intro cid2 scopes2 ga2 gr2 now2
    generalize hs : (exchange_refresh_token s cid tok scopes ga gr now).2 = s2 at habsent ⊢
    simp [exchange_refresh_token, TokenStore.get_refresh_token, habsent]

/-- Witness for C3 at a concrete store: one successful exchange, then the
replayed old token fails everywhere. -/
theorem refresh_token_single_use_witness :
    ((exchange_refresh_token sampleStoreR "cli" "rt0" [] "at9" "rt9" 100).1 = .ok {
        access_token := "at9"
        token_type := "Bearer"
        expires_in := ACCESS_TOKEN_EXPIRY
        refresh_token := "rt9"
        scope := String.intercalate " "
          (if ([] : List String) = [] then sampleRefresh.scopes else []) } ∧
      "rt9" ≠ "rt0") ∧
    dget (exchange_refresh_token sampleStoreR "cli" "rt0" [] "at9" "rt9" 100).2.refresh_tokens
      "rt0" = none ∧
    (load_refresh_token (exchange_refresh_token sampleStoreR "cli" "rt0" [] "at9" "rt9" 100).2
      "cli" "rt0" 150).1 = none ∧
    (exchange_refresh_token (exchange_refresh_token sampleStoreR "cli" "rt0" [] "at9" "rt9" 100).2
      "cli" "rt0" [] "at8" "rt8" 150).1 =
      .error ⟨"invalid_grant", "Refresh token not found or expired"⟩ := by
  have t := refresh_token_single_use sampleStoreR "cli" "rt0" "at9" "rt9" [] 100
    sampleRefresh rfl (by decide) (by decide)
  exact ⟨t.1, t.2.2.1, t.2.2.2.1 "cli" 150, t.2.2.2.2 "cli" [] "at8" "rt8" 150⟩

/-! ### C4 — refresh preserves identity and handles scopes -/

/-- C4: a successful `exchange_refresh_token` stores a new access token and a
new refresh token that carry exactly the old refresh token's identity bundle
(`agent_api_key`, `agent_id`, `agent_name`, `user_jwt`); a non-empty
caller-supplied scope list replaces the stored scopes on both, an empty one
keeps the old token's scopes. -/
theorem refresh_preserves_identity (s : TokenStore) (cid tok ga gr : String)
    (scopes : List String) (now : Int) (old : RefreshTokenData)
    (h : dget s.refresh_tokens tok = some old)
    (hexp : truthyLt old.expires_at now = false) :
    dget (exchange_refresh_token s cid tok scopes ga gr now).2.access_tokens ga =
      some {
        token := ga
        client_id := cid
        scopes := if scopes = [] then old.scopes else scopes
        expires_at := some (now + ACCESS_TOKEN_EXPIRY)
        agent_api_key := old.agent_api_key
        agent_id := old.agent_id
        agent_name := old.agent_name
        user_jwt := old.user_jwt
        resource := none } ∧
    dget (exchange_refresh_token s cid tok scopes ga gr now).2.refresh_tokens gr =
      some {
        token := gr
        client_id := cid
        scopes := if scopes = [] then old.scopes else scopes
        expires_at := some (now + REFRESH_TOKEN_EXPIRY)
        agent_api_key := old.agent_api_key
        agent_id := old.agent_id
        agent_name := old.agent_name
        user_jwt := old.user_jwt } := by
  constructor
  · simp [exchange_refresh_token, TokenStore.get_refresh_token, h, hexp,
      TokenStore.revoke_refresh_token, TokenStore.store_access_token,
      TokenStore.store_refresh_token, dget_dinsert_self]
  · simp [exchange_refresh_token, TokenStore.get_refresh_token, h, hexp,
      TokenStore.revoke_refresh_token, TokenStore.store_access_token,
      TokenStore.store_refresh_token, dget_dinsert_self]

/-- Witness for C4: a refresh with caller-supplied scopes `["narrow"]`
rebinds the same identity bundle under the new scopes. -/
theorem refresh_preserves_identity_witness :
    dget (exchange_refresh_token sampleStoreR "cli" "rt0" ["narrow"] "at9" "rt9" 100).2.access_tokens
      "at9" = some {
        token := "at9"
        client_id := "cli"
        scopes := if (["narrow"] : List String) = [] then sampleRefresh.scopes else ["narrow"]
        expires_at := some (100 + ACCESS_TOKEN_EXPIRY)
        agent_api_key := sampleRefresh.agent_api_key
        agent_id := sampleRefresh.agent_id
        agent_name := sampleRefresh.agent_name
        user_jwt := sampleRefresh.user_jwt
        resource := none } ∧
    dget (exchange_refresh_token sampleStoreR "cli" "rt0" ["narrow"] "at9" "rt9" 100).2.refresh_tokens
      "rt9" = some {
        token := "rt9"
        client_id := "cli"
        scopes := if (["narrow"] : List String) = [] then sampleRefresh.scopes else ["narrow"]
        expires_at := some (100 + REFRESH_TOKEN_EXPIRY)
        agent_api_key := sampleRefresh.agent_api_key
        agent_id := sampleRefresh.agent_id
        agent_name := sampleRefresh.agent_name
        user_jwt := sampleRefresh.user_jwt } :=
  refresh_preserves_identity sampleStoreR "cli" "rt0" "at9" "rt9" ["narrow"] 100
    sampleRefresh rfl (by decide)

/-! ### C5 — access-token expiry enforcement -/

/-- An access token with `expires_at = 0`: in the past, but falsy in Python. -/
def zeroExpiryAccess : AccessTokenData := {
  token := "t"
  client_id := "cli"
  scopes := ["agent"]
  expires_at := some 0
  agent_api_key := "key"
  agent_id := "aid"
  agent_name := "AgentA"
  user_jwt := "jwt"
  resource := none }

/-- Store holding `zeroExpiryAccess`. -/
def zeroExpiryStore : TokenStore := { access_tokens := [("t", zeroExpiryAccess)] }

/-- An access token expiring exactly at the boundary instant 5. -/
def boundaryAccess : AccessTokenData := { zeroExpiryAccess with token := "u", expires_at := some 5 }

/-- Store holding `boundaryAccess`. -/
def boundaryStore : TokenStore := { access_tokens := [("u", boundaryAccess)] }

/-- A still-valid access token for witnesses. -/
def validAccess : AccessTokenData := { zeroExpiryAccess with token := "v", expires_at := some 5000 }

/-- Store holding `validAccess`. -/
def validAccessStore : TokenStore := { access_tokens := [("v", validAccess)] }

/-- A truthy-expired access token for witnesses. -/
def staleAccess : AccessTokenData := { zeroExpiryAccess with token := "w", expires_at := some 10 }

/-- Store holding `staleAccess`. -/
def staleAccessStore : TokenStore := { access_tokens := [("w", staleAccess)] }

/-- C5 counterexample: (a) a token whose `expires_at = 0` lies in the past at
`now = 1`, yet `get_access_token` returns it (Python truthiness skips the
expiry check for `0`); (b) a token with `expires_at = 5` is returned at
`now = 5`, so the returned `expires_at` is not strictly greater than `now`.
Both refute the claim as stated. -/
theorem access_token_expiry_counterexample :
    ((TokenStore.get_access_token zeroExpiryStore "t" 1).1 = some zeroExpiryAccess ∧
      zeroExpiryAccess.expires_at = some 0 ∧ (0 : Int) < 1) ∧
    ((TokenStore.get_access_token boundaryStore "u" 5).1 = some boundaryAccess ∧
      boundaryAccess.expires_at = some 5 ∧ ¬ ((5 : Int) > 5)) := by
  refine ⟨⟨by decide, by decide, by decide⟩, ⟨by decide, by decide, by decide⟩⟩

/-- C5 amended: whenever `get_access_token` returns a result whose
`expires_at` is non-null and non-zero, that `expires_at` is `≥ now`; an
entry whose non-null, non-zero `expires_at` lies strictly in the past is
never returned and is deleted from the store on that read. (Entries with
`expires_at` null or `0` are returned regardless of time — Python
truthiness.) -/
theorem access_token_expiry_amended (s : TokenStore) (tok : String) (now : Int) :
    (∀ (d : AccessTokenData) (e : Int),
      (TokenStore.get_access_token s tok now).1 = some d → d.expires_at = some e →
      e ≠ 0 → now ≤ e) ∧
    (∀ (d : AccessTokenData) (e : Int),
      dget s.access_tokens tok = some d → d.expires_at = some e → e ≠ 0 → e < now →
      TokenStore.get_access_token s tok now =
        (none, { s with access_tokens := derase s.access_tokens tok })) := by
  constructor
  · intro d e hres he hne
    cases hd : dget s.access_tokens tok with
    | none => simp [TokenStore.get_access_token, hd] at hres
    | some data =>
      by_cases hexp : truthyLt data.expires_at now
      · simp [TokenStore.get_access_token, hd, hexp] at hres
      · simp [TokenStore.get_access_token, hd, hexp] at hres
        subst hres
        rw [he] at hexp
        simp [truthyLt, hne] at hexp
        omega
  · intro d e hd he hne hlt
    have hexp : truthyLt d.expires_at now = true := by
      simp [truthyLt, he, hne, hlt]
    simp [TokenStore.get_access_token, hd, hexp]

/-- Witness for the amended C5: a valid token's expiry bounds `now`, and a
stale token is evicted on read. -/
theorem access_token_expiry_amended_witness :
    (100 : Int) ≤ 5000 ∧
    TokenStore.get_access_token staleAccessStore "w" 100 =
      (none, { staleAccessStore with
        access_tokens := derase staleAccessStore.access_tokens "w" }) := by
  refine ⟨?_, ?_⟩
  · exact (access_token_expiry_amended validAccessStore "v" 100).1 validAccess 5000
      (by decide) (by decide) (by decide)
  · exact (access_token_expiry_amended staleAccessStore "w" 100).2 staleAccess 10
      rfl (by decide) (by decide) (by decide)

/-! ### C9 — agent switch is a pure rebinding -/

/-- The record `update_access_token_agent` writes back: only the three agent
fields change, every other field is kept from the old record. -/
def rebindAgent (d : AccessTokenData) (k i n : String) : AccessTokenData :=
  { d with agent_api_key := k, agent_id := i, agent_name := n }

/-- C9: when the token is present, `update_access_token_agent` returns `true`
and replaces exactly the three agent fields (`agent_api_key`, `agent_id`,
`agent_name`) of the stored record, keeping the token string as the key and
every other field (`client_id`, `scopes`, `expires_at`, `user_jwt`,
`resource`) as in the old record; while the token is still valid a
subsequent `get_access_token` returns the rebound record (in particular the
new `agent_id`). When the token is absent it returns `false` and the store
is unchanged. -/
theorem agent_switch_rebinds (s : TokenStore) (tok k i n : String) :
    (∀ d : AccessTokenData, dget s.access_tokens tok = some d →
      TokenStore.update_access_token_agent s tok k i n =
        (true, { s with access_tokens := dinsert s.access_tokens tok (rebindAgent d k i n) }) ∧
      (∀ now : Int, truthyLt d.expires_at now = false →
        (TokenStore.get_access_token
            (TokenStore.update_access_token_agent s tok k i n).2 tok now).1 =
          some (rebindAgent d k i n))) ∧
    (dget s.access_tokens tok = none →
      TokenStore.update_access_token_agent s tok k i n = (false, s)) := by
  constructor
  · intro d hd
    constructor
    · simp [TokenStore.update_access_token_agent, hd, rebindAgent]
    · intro now hexp
      simp [TokenStore.update_access_token_agent, hd, TokenStore.get_access_token,
        dget_dinsert_self, hexp, rebindAgent]
  · intro hd
    simp [TokenStore.update_access_token_agent, hd]

/-- Token `validAccess` rebound to agent `B`. -/
def reboundAccess : AccessTokenData := rebindAgent validAccess "newkey" "B" "AgentB"

/-- Witness for C9: rebinding `validAccess` to agent `B` keeps the token
string and the other fields, and the follow-up read reports agent `B`; on an
empty store the switch reports `false` and changes nothing. -/
theorem agent_switch_rebinds_witness :
    TokenStore.update_access_token_agent validAccessStore "v" "newkey" "B" "AgentB" =
      (true, { validAccessStore with
        access_tokens := dinsert validAccessStore.access_tokens "v" reboundAccess }) ∧
    (TokenStore.get_access_token
        (TokenStore.update_access_token_agent validAccessStore "v" "newkey" "B" "AgentB").2
        "v" 100).1 = some reboundAccess ∧
    TokenStore.update_access_token_agent ({} : TokenStore) "v" "newkey" "B" "AgentB" =
      (false, {}) := by
  have t := agent_switch_rebinds validAccessStore "v" "newkey" "B" "AgentB"
  have t2 := agent_switch_rebinds ({} : TokenStore) "v" "newkey" "B" "AgentB"
  exact ⟨(t.1 validAccess rfl).1, (t.1 validAccess rfl).2 100 (by decide), t2.2 rfl⟩

/-! ### C10 — refresh drops the resource indicator -/

/-- C10: `RefreshTokenData` carries no `resource` field, so every access
token minted by a successful `exchange_refresh_token` has `resource = none`
— even when the access token originally issued alongside that refresh token
carried one — while `exchange_authorization_code` propagates the code's
`resource` onto the access token it mints. -/
theorem refresh_drops_resource (s : TokenStore) (cid tok ga gr : String)
    (scopes : List String) (now : Int) (old : RefreshTokenData)
    (h : dget s.refresh_tokens tok = some old)
    (hexp : truthyLt old.expires_at now = false) :
    (∃ resp : OAuthTokenResp,
      (exchange_refresh_token s cid tok scopes ga gr now).1 = .ok resp) ∧
    (∀ d : AccessTokenData,
      dget (exchange_refresh_token s cid tok scopes ga gr now).2.access_tokens ga = some d →
      d.resource = none) ∧
    (∀ (s2 : TokenStore) (code cid2 ga2 gr2 : String) (now2 : Int) (d2 : AuthCodeData),
      dget s2.auth_codes code = some d2 →
      ∀ d3 : AccessTokenData,
        dget (exchange_authorization_code s2 cid2 code ga2 gr2 now2).2.access_tokens ga2 =
          some d3 →
        d3.resource = d2.resource) := by
  refine ⟨?_, ?_, ?_⟩
  · refine ⟨{
      access_token := ga
      token_type := "Bearer"
      expires_in := ACCESS_TOKEN_EXPIRY
      refresh_token := gr
      scope := String.intercalate " " (if scopes = [] then old.scopes else scopes) }, ?_⟩
    simp [exchange_refresh_token, TokenStore.get_refresh_token, h, hexp]
  · intro d hd
    rw [show (exchange_refresh_token s cid tok scopes ga gr now).2.access_tokens =
        dinsert s.access_tokens ga {
          token := ga
          client_id := cid
          scopes := if scopes = [] then old.scopes else scopes
          expires_at := some (now + ACCESS_TOKEN_EXPIRY)
          agent_api_key := old.agent_api_key
          agent_id := old.agent_id
          agent_name := old.agent_name
          user_jwt := old.user_jwt
          resource := none } from by
      simp [exchange_refresh_token, TokenStore.get_refresh_token, h, hexp,
        TokenStore.revoke_refresh_token, TokenStore.store_access_token,
        TokenStore.store_refresh_token], dget_dinsert_self] at hd
    have hd' := Option.some.inj hd
    subst hd'
    rfl
  · intro s2 code cid2 ga2 gr2 now2 d2 h2 d3 h3
    rw [show (exchange_authorization_code s2 cid2 code ga2 gr2 now2).2.access_tokens =
        dinsert s2.access_tokens ga2 {
          token := ga2
          client_id := cid2
          scopes := d2.scopes
          expires_at := some (now2 + ACCESS_TOKEN_EXPIRY)
          agent_api_key := d2.agent_api_key
          agent_id := d2.agent_id
          agent_name := d2.agent_name
          user_jwt := d2.user_jwt
          resource := d2.resource } from by
      simp [exchange_authorization_code, TokenStore.consume_auth_code, h2,
        TokenStore.store_access_token, TokenStore.store_refresh_token],
      dget_dinsert_self] at h3
    have h3' := Option.some.inj h3
    subst h3'
    rfl

/-- Witness for C10: refreshing `sampleRefresh` — whose sibling access token
carried a resource — yields an access token with `resource = none`, while
the code exchange propagates `some "https://resource"`. -/
theorem refresh_drops_resource_witness :
    ((exchange_refresh_token sampleStoreR "cli" "rt0" [] "at9" "rt9" 100).1 =
      .ok {
        access_token := "at9"
        token_type := "Bearer"
        expires_in := ACCESS_TOKEN_EXPIRY
        refresh_token := "rt9"
        scope := "agent" }) ∧
    (∀ d : AccessTokenData,
      dget (exchange_refresh_token sampleStoreR "cli" "rt0" [] "at9" "rt9" 100).2.access_tokens
        "at9" = some d → d.resource = none) := by
  have t := refresh_drops_resource sampleStoreR "cli" "rt0" "at9" "rt9" [] 100
    sampleRefresh rfl (by decide)
  exact ⟨rfl, t.2.1⟩

/-! ### C7 — persistence round-trip -/

theorem decodeStrs_map (l : List String) : decodeStrs (l.map .str) = some l := by
  induction l with
  | nil => simp [decodeStrs]
  | cons hd tl ih => simp [decodeStrs, ih]

theorem accessFromJson_toJson (d : AccessTokenData) :
    accessFromJson (accessToJson d) = some d := by
  obtain ⟨token, cid, scopes, ea, key, aid, an, jwt, res⟩ := d
  cases ea <;> cases res <;>
    simp [accessToJson, accessFromJson, dget, strListToJson, asStrList,
      decodeStrs_map, asStr, asOptInt, asOptStr, optIntToJson, optStrToJson]

theorem refreshFromJson_toJson (d : RefreshTokenData) :
    refreshFromJson (refreshToJson d) = some d := by
  obtain ⟨token, cid, scopes, ea, key, aid, an, jwt⟩ := d
  cases ea <;>
    simp [refreshToJson, refreshFromJson, dget, strListToJson, asStrList,
      decodeStrs_map, asStr, asOptInt, optIntToJson]

theorem loadAccessLoop_save (l : List (String × AccessTokenData)) (now : Int)
    (acc : List (String × AccessTokenData)) :
    loadAccessLoop (l.map fun kv => (kv.1, accessToJson kv.2)) now acc =
      (acc ++ l.filter (fun kv => !truthyLt kv.2.expires_at now), true) := by
  induction l generalizing acc with
  | nil => simp [loadAccessLoop]
  | cons hd tl ih =>
    obtain ⟨k, v⟩ := hd
    by_cases hexp : truthyLt v.expires_at now
    · simp [loadAccessLoop, accessFromJson_toJson, hexp, ih, List.filter_cons]
    · simp [loadAccessLoop, accessFromJson_toJson, hexp, ih, List.filter_cons]

theorem loadRefreshLoop_save (l : List (String × RefreshTokenData)) (now : Int)
    (acc : List (String × RefreshTokenData)) :
    loadRefreshLoop (l.map fun kv => (kv.1, refreshToJson kv.2)) now acc =
      (acc ++ l.filter (fun kv => !truthyLt kv.2.expires_at now), true) := by
  induction l generalizing acc with
  | nil => simp [loadRefreshLoop]
  | cons hd tl ih =>
    obtain ⟨k, v⟩ := hd
    by_cases hexp : truthyLt v.expires_at now
    · simp [loadRefreshLoop, refreshFromJson_toJson, hexp, ih, List.filter_cons]
    · simp [loadRefreshLoop, refreshFromJson_toJson, hexp, ih, List.filter_cons]

/-- C7 counterexample: saving a store holding a token whose `expires_at = 0`
lies in the past at load time (`now = 1`) and reloading does **not** omit
it — the load-time check `expires_at and expires_at < now` treats `0` as
falsy, so the expired entry is loaded with all its fields. -/
theorem persistence_roundtrip_counterexample :
    (0 : Int) < 1 ∧
    dget (tokenStoreFromSaved (saveTokens zeroExpiryStore) 1).access_tokens "t" =
      some zeroExpiryAccess := by
  refine ⟨by decide, ?_⟩
  rfl

/-- C7 amended: reloading a saved `TokenStore` yields exactly the
access/refresh entries whose `expires_at` is null, zero, or `≥ now` — i.e.
the load drops precisely the entries whose non-null, non-zero `expires_at`
is in the past — with all record fields equal to the originals; auth codes
and pending logins are not persisted. -/
theorem persistence_roundtrip_amended (s : TokenStore) (now : Int) :
    tokenStoreFromSaved (saveTokens s) now = {
      access_tokens := s.access_tokens.filter (fun kv => !truthyLt kv.2.expires_at now)
      refresh_tokens := s.refresh_tokens.filter (fun kv => !truthyLt kv.2.expires_at now) } := by
  simp [saveTokens, tokenStoreFromSaved, dget, loadAccessLoop_save, loadRefreshLoop_save]

/-! ### C6 — OAuth state round-trip -/

theorem dget_construct_state (b c : String) (st : Option String) :
    dget (construct_redirect_uri b c st).query "state" = st := by
  cases st <;> simp [construct_redirect_uri, dget]

/-- Any redirect response produced by `_complete_authorization` is the
redirect built from the pending login's `redirect_uri`, the new code, and
`oauth_state or None`. -/
theorem complete_redirect_shape (s : TokenStore) (st : String) (pending : PendingLogin)
    (aid an : String) (cb : Bool) (cr rr : Except String (Option String))
    (gc : String) (now : Int) (uri : RedirectUri)
    (h : (complete_authorization s st pending aid an cb cr rr gc now).response =
      .redirect uri) :
    uri = construct_redirect_uri pending.redirect_uri gc
      (if pending.oauth_state = "" then none else some pending.oauth_state) := by
  unfold complete_authorization at h
  rcases cr with e | k
  · simp at h
  · by_cases hk : truthyOptStr k
    · simp [hk, completeWithKey] at h
      exact h.symm
    · by_cases hcb : cb
      · simp [hk, hcb] at h
        rcases rr with e2 | k2
        · simp at h
        · by_cases hk2 : truthyOptStr k2
          · simp [hk2, completeWithKey] at h
            exact h.symm
          · simp [hk2] at h
      · simp [hk, hcb] at h

/-- C6 amended: the `PendingLogin` stored by `authorize` captures
`params.state or ""` as `oauth_state`, and every redirect produced by the
authorization-completion step for that pending login embeds exactly that
string as the `state` query parameter **when it is non-empty**; when the
client supplied no (or an empty) state, the `state` parameter is omitted
from the redirect URI. The internal `genState` token plays no role in the
parameter. -/
theorem oauth_state_roundtrip (s : TokenStore) (cid : String)
    (params : AuthorizationParams) (genState server_url : String) (now : Int) :
    dget (authorize s cid params genState server_url now).2.pending_logins genState =
      some (authorizePending cid params genState now) ∧
    (authorizePending cid params genState now).oauth_state = params.state.getD "" ∧
    (∀ (s2 : TokenStore) (st aid an : String) (cb : Bool)
        (cr rr : Except String (Option String)) (gc : String) (now2 : Int)
        (uri : RedirectUri),
      (complete_authorization s2 st (authorizePending cid params genState now) aid an cb
          cr rr gc now2).response = .redirect uri →
      dget uri.query "state" =
        if params.state.getD "" = "" then none else some (params.state.getD "")) := by
  refine ⟨?_, rfl, ?_⟩
  · have : (authorizePending cid params genState now).state = genState := rfl
    simp [authorize, TokenStore.store_pending_login, this, dget_dinsert_self]
  · intro s2 st aid an cb cr rr gc now2 uri h
    have hshape := complete_redirect_shape s2 st (authorizePending cid params genState now)
      aid an cb cr rr gc now2 uri h
    subst hshape
    rw [dget_construct_state]
    rfl

/-- Parameters of a client that supplied no OAuth `state`. -/
def noStateParams : AuthorizationParams := {
  state := none
  scopes := some ["agent"]
  code_challenge := "ch"
  redirect_uri := "https://client/cb"
  redirect_uri_provided_explicitly := true
  resource := none }

/-- The pending login `authorize` stores for `noStateParams`. -/
def noStatePending : PendingLogin := authorizePending "cli" noStateParams "i1" 50

/-- C6 counterexample: with a client that supplied no `state`, the pending
login captures `oauth_state = ""`, but the completion redirect embeds **no**
`state` query parameter at all — so the captured value (`""`) is not the
string embedded as the `state` parameter (there is none). -/
theorem oauth_state_roundtrip_counterexample :
    dget (authorize {} "cli" noStateParams "i1" "https://srv" 50).2.pending_logins "i1" =
      some noStatePending ∧
    noStatePending.oauth_state = "" ∧
    (complete_authorization {} "i1" noStatePending "aid" "AgentA" false (.ok (some "key"))
        (.ok none) "code9" 60).response =
      .redirect ⟨"https://client/cb", [("code", "code9")]⟩ ∧
    dget (RedirectUri.mk "https://client/cb" [("code", "code9")]).query "state" = none ∧
    ¬ (dget (RedirectUri.mk "https://client/cb" [("code", "code9")]).query "state" =
        some noStatePending.oauth_state) := by
  exact ⟨rfl, rfl, rfl, by decide, by decide⟩

/-- Parameters of a client that supplied state `"xyz"`. -/
def xyzParams : AuthorizationParams := { noStateParams with state := some "xyz" }

/-- The redirect produced for `xyzParams` at code `"code9"`. -/
def xyzRedirect : RedirectUri := ⟨"https://client/cb", [("code", "code9"), ("state", "xyz")]⟩

/-- Witness for the amended C6: with client state `"xyz"`, the stored
pending login carries it and the completion redirect's `state` parameter is
exactly `"xyz"`. -/
theorem oauth_state_roundtrip_witness :
    dget (authorize {} "cli" xyzParams "i1" "https://srv" 50).2.pending_logins "i1" =
      some (authorizePending "cli" xyzParams "i1" 50) ∧
    dget xyzRedirect.query "state" = some "xyz" := by
  have t := oauth_state_roundtrip {} "cli" xyzParams "i1" "https://srv" 50
  refine ⟨t.1, ?_⟩
  exact t.2.2 {} "st" "aid" "AgentA" false (.ok (some "key")) (.ok none) "code9" 60
    xyzRedirect rfl

/-! ### C8 — reset confirmation gate -/

theorem consume_pending_auth_codes (s : TokenStore) (st : String) :
    (s.consume_pending_login st).2.auth_codes = s.auth_codes := by
  unfold TokenStore.consume_pending_login
  cases h : dget s.pending_logins st <;> simp

theorem dget_consume_pending_self (s : TokenStore) (st : String) :
    dget (s.consume_pending_login st).2.pending_logins st = none := by
  unfold TokenStore.consume_pending_login
  cases h : dget s.pending_logins st with
  | none => simpa using h
  | some d => simpa using dget_derase_self s.pending_logins st

/-- C8: for a pending login whose chosen agent has no stored API key
(`truthyOptStr k = false`, i.e. the credentials call returned `None` or
`""`), calling `_complete_authorization` with `confirm_reset = false`
returns the `needs_reset` response carrying `agent_id` and `agent_name`,
leaves the store untouched (no code issued, pending login unconsumed) and
invokes the reset zero times; with `confirm_reset = true` the reset backend
call is invoked exactly once, and when the reset response carries a
non-empty key, authorization completes: the redirect is returned, the auth
code bound to that key is stored, and the pending login is consumed. -/
theorem reset_confirmation_gate (s : TokenStore) (st : String) (pending : PendingLogin)
    (aid an : String) (rr : Except String (Option String)) (gc : String) (now : Int)
    (k : Option String) (hk : truthyOptStr k = false) :
    complete_authorization s st pending aid an false (.ok k) rr gc now =
      ⟨.needsReset aid an
        ("Agent「" ++ an ++ "」注册较早，未存储 API Key，需要重置生成新 Key 后才能使用。重置后原有 Key 将失效。"),
       s, 0⟩ ∧
    (complete_authorization s st pending aid an true (.ok k) rr gc now).resetCalls = 1 ∧
    (∀ key : String, rr = .ok (some key) → key ≠ "" →
      (complete_authorization s st pending aid an true (.ok k) rr gc now).response =
        .redirect (construct_redirect_uri pending.redirect_uri gc
          (if pending.oauth_state = "" then none else some pending.oauth_state)) ∧
      dget (complete_authorization s st pending aid an true (.ok k) rr gc now).store.auth_codes
        gc = some (authCodeFor pending aid an key gc now) ∧
      dget (complete_authorization s st pending aid an true (.ok k) rr gc now).store.pending_logins
        st = none) := by
  refine ⟨?_, ?_, ?_⟩
  · simp [complete_authorization, hk]
  · rcases rr with e2 | k2
    · simp [complete_authorization, hk]
    · by_cases hk2 : truthyOptStr k2
      · simp [complete_authorization, hk, hk2, completeWithKey]
      · simp [complete_authorization, hk, hk2]
  · intro key hrr hkey
    subst hrr
    have hk2 : truthyOptStr (some key) = true := by
      simp [truthyOptStr, hkey]
    refine ⟨?_, ?_, ?_⟩
    · simp [complete_authorization, hk, hk2, completeWithKey]
    · simp [complete_authorization, hk, hk2, completeWithKey,
        consume_pending_auth_codes, TokenStore.store_auth_code, authCodeFor,
        dget_dinsert_self]
    · simp [complete_authorization, hk, hk2, completeWithKey, dget_consume_pending_self]

/-- Witness for C8 at a concrete pending login: no key and no confirmation
yields `needs_reset` with zero resets and an unchanged store; confirming
performs one reset and completes with the code bound to the new key. -/
theorem reset_confirmation_gate_witness :
    complete_authorization {} "i1" noStatePending "aid" "AgentA" false (.ok none)
        (.ok (some "newkey")) "code9" 60 =
      ⟨.needsReset "aid" "AgentA"
        ("Agent「" ++ "AgentA" ++ "」注册较早，未存储 API Key，需要重置生成新 Key 后才能使用。重置后原有 Key 将失效。"),
       {}, 0⟩ ∧
    (complete_authorization {} "i1" noStatePending "aid" "AgentA" true (.ok none)
        (.ok (some "newkey")) "code9" 60).resetCalls = 1 ∧
    dget (complete_authorization {} "i1" noStatePending "aid" "AgentA" true (.ok none)
        (.ok (some "newkey")) "code9" 60).store.auth_codes "code9" =
      some (authCodeFor noStatePending "aid" "AgentA" "newkey" "code9" 60) := by
  have t := reset_confirmation_gate {} "i1" noStatePending "aid" "AgentA"
    (.ok (some "newkey")) "code9" 60 none rfl
  exact ⟨t.1, t.2.1, (t.2.2 "newkey" rfl (by decide)).2.1⟩

end ClawdChat
